import Mathlib

/-!
# Shot Analytics Engine — verification of the soccer-shot-tracker core

Shallow embedding of the pure analytics helpers of the repository:
the aggregator (`calculateTeamStats`, `calculateHalfStats`, `calculateAccuracy`,
`calculateConversionRate`), the filter engine (`filterShots`), the density-grid
builder (`getShotWeight`, `getHeatMapShots`, `calculateDensityGrid`,
`getMaxDensity`, `getDensityColor`), and the shot-log state machine
(`createGameState`, `addShot`, `undoLastShot`).

JavaScript numbers are modelled as `ℚ` (the constants involved — 0.4, 52.5,
grid cells of 5, alpha bands — are all exactly representable in binary or the
claims are agnostic to rounding at this scale); counts are `ℕ`, scores `ℤ`.
The source keys team / type / half by free strings such as "home", "GOAL!",
"Shot On Target", "1st Half"; the embedding keeps them as `String` so that the
"unknown string" behaviours the spec talks about are expressible.
Fields the analytics functions never read (`teamName`, `gameTime`, ids) are
omitted from the record.
-/

/-- Pitch position in metres, `shot.position` in the source. -/
structure Position where
  x : ℚ
  y : ℚ
deriving DecidableEq, Repr

/-- One shot record, the fields the analytics core reads. -/
structure Shot where
  team : String
  type : String
  half : String
  position : Position
deriving DecidableEq, Repr

/-! ## Aggregator (stats test helpers) -/

/-- Result shape of `calculateTeamStats`. -/
structure TeamStats where
  goals : ℕ
  onTarget : ℕ
  offTarget : ℕ
  total : ℕ
deriving DecidableEq, Repr

/-- Result shape of `calculateHalfStats` — note: no `total` field in the source. -/
structure HalfStats where
  goals : ℕ
  onTarget : ℕ
  offTarget : ℕ
deriving DecidableEq, Repr

/-- `calculateTeamStats(shots, team)` from the stats test helpers. -/
def calculateTeamStats (shots : List Shot) (team : String) : TeamStats :=
  let teamShots := shots.filter (fun s => s.team == team)
  let goals := (teamShots.filter (fun s => s.type == "GOAL!")).length
  let onTarget := (teamShots.filter (fun s => s.type == "Shot On Target")).length
  let offTarget := (teamShots.filter (fun s => s.type == "Shot Off Target")).length
  { goals := goals
    onTarget := goals + onTarget -- Goals count as on target
    offTarget := offTarget
    total := teamShots.length }

/-- `calculateHalfStats(shots, team, half)` from the stats test helpers.
Returns `{ goals, onTarget, offTarget }`; `onTarget` here is the raw
"Shot On Target" count (goals are not added in), and there is no `total`. -/
def calculateHalfStats (shots : List Shot) (team : String) (half : String) : HalfStats :=
  let filteredShots := shots.filter (fun s => s.team == team && s.half == half)
  let goals := (filteredShots.filter (fun s => s.type == "GOAL!")).length
  let onTarget := (filteredShots.filter (fun s => s.type == "Shot On Target")).length
  let offTarget := (filteredShots.filter (fun s => s.type == "Shot Off Target")).length
  { goals := goals, onTarget := onTarget, offTarget := offTarget }

/-- `calculateAccuracy(shots)`: percentage of on-target shots (goals included),
`0` on the empty list. -/
def calculateAccuracy (shots : List Shot) : ℚ :=
  if shots.length = 0 then 0
  else
    let onTarget :=
      (shots.filter (fun s => s.type == "GOAL!" || s.type == "Shot On Target")).length
    ((onTarget : ℚ) / (shots.length : ℚ)) * 100

/-- `calculateConversionRate(shots)`: percentage of goals, `0` on the empty list. -/
def calculateConversionRate (shots : List Shot) : ℚ :=
  if shots.length = 0 then 0
  else
    let goals := (shots.filter (fun s => s.type == "GOAL!")).length
    ((goals : ℚ) / (shots.length : ℚ)) * 100

/-! ## Filter engine (filtering test helpers) -/

/-- `filterByTeam(shots, team)`. -/
def filterByTeam (shots : List Shot) (team : String) : List Shot :=
  if team = "all" then shots else shots.filter (fun s => s.team == team)

/-- `filterByType(shots, type)`. -/
def filterByType (shots : List Shot) (ty : String) : List Shot :=
  if ty = "all" then shots else shots.filter (fun s => s.type == ty)

/-- `filterByHalf(shots, half)`. -/
def filterByHalf (shots : List Shot) (half : String) : List Shot :=
  if half = "all" then shots else shots.filter (fun s => s.half == half)

/-- The criteria object of `filterShots`; each omitted field defaults to
`"all"`, exactly as the source's destructuring defaults do. An entirely
absent criteria object is the record with all three defaults. -/
structure FilterCriteria where
  team : String := "all"
  type : String := "all"
  half : String := "all"
deriving DecidableEq, Repr

/-- `filterShots(shots, {team, type, half})`: team, then type, then half. -/
def filterShots (shots : List Shot) (c : FilterCriteria) : List Shot :=
  filterByHalf (filterByType (filterByTeam shots c.team) c.type) c.half

/-! ## Density grid builder and color mapper (heat-map test helpers) -/

def FIELD_WIDTH : ℚ := 105
def FIELD_HEIGHT : ℚ := 68
def GRID_SIZE : ℚ := 5
def MIN_SHOTS_FOR_HEAT_MAP : ℕ := 10

/-- `canShowHeatMap(shots)`. -/
def canShowHeatMap (shots : List Shot) : Bool :=
  MIN_SHOTS_FOR_HEAT_MAP ≤ shots.length

/-- `canShowTeamHeatMap(shots, team)`. -/
def canShowTeamHeatMap (shots : List Shot) (team : String) : Bool :=
  MIN_SHOTS_FOR_HEAT_MAP ≤ (shots.filter (fun s => s.team == team)).length

/-- `getHeatMapShots(shots, teamFilter)`: optional team scoping followed by the
weighting-policy inclusion filter (goals / on-target always; off-target only in
the attacking half `x > 52.5`). -/
def getHeatMapShots (shots : List Shot) (teamFilter : String) : List Shot :=
  let filtered := if teamFilter = "all" then shots
                  else shots.filter (fun s => s.team == teamFilter)
  filtered.filter (fun shot =>
    if shot.type == "GOAL!" || shot.type == "Shot On Target" then true
    else if shot.type == "Shot Off Target" then decide ((105 : ℚ)/2 < shot.position.x)
    else false)

/-- `getShotWeight(shot)`: 1.0 for goals and on-target shots, 0.4 for
off-target shots with `x > 52.5`, otherwise 0. -/
def getShotWeight (shot : Shot) : ℚ :=
  if shot.type = "GOAL!" ∨ shot.type = "Shot On Target" then 1
  else if shot.type = "Shot Off Target" ∧ (105 : ℚ)/2 < shot.position.x then 2/5
  else 0

/-- One `grid[row][col] += weight` step of `calculateDensityGrid`. -/
def bumpCell (grid : List (List ℚ)) (row col : ℕ) (w : ℚ) : List (List ℚ) :=
  grid.set row ((grid.getD row []).set col ((grid.getD row []).getD col 0 + w))

/-- `calculateDensityGrid(shots, gridSize)`: a `ceil(68/g) × ceil(105/g)` grid
of zeros into which each shot's weight is accumulated at cell
`(floor(y/g), floor(x/g))`, guarded by the source's bounds check
`col >= 0 && col < cols && row >= 0 && row < rows`. -/
def calculateDensityGrid (shots : List Shot) (gridSize : ℚ) : List (List ℚ) :=
  let cols : ℕ := ⌈FIELD_WIDTH / gridSize⌉.toNat
  let rows : ℕ := ⌈FIELD_HEIGHT / gridSize⌉.toNat
  let grid : List (List ℚ) := List.replicate rows (List.replicate cols 0)
  shots.foldl (fun g shot =>
    let col : ℤ := ⌊shot.position.x / gridSize⌋
    let row : ℤ := ⌊shot.position.y / gridSize⌋
    let weight := getShotWeight shot
    if 0 ≤ col ∧ col < (cols : ℤ) ∧ 0 ≤ row ∧ row < (rows : ℤ) then
      bumpCell g row.toNat col.toNat weight
    else g) grid

/-- Cell lookup `grid[row][col]` (0 outside the grid). -/
def gridCell (grid : List (List ℚ)) (row col : ℕ) : ℚ :=
  (grid.getD row []).getD col 0

/-- `getMaxDensity(grid)` = `Math.max(...grid.flat())`. The `[]` branch is
unreachable for the grids the builder produces (they always hold at least one
cell); JavaScript would yield `-Infinity` there, which has no `ℚ` counterpart. -/
def getMaxDensity (grid : List (List ℚ)) : ℚ :=
  match grid.flatten with
  | [] => 0
  | x :: xs => xs.foldl max x

/-- The color tokens `getDensityColor` can produce: the `'transparent'`
string or an `rgba(r, g, b, a)` string. -/
inductive ColorToken where
  | transparent
  | rgba (r g b : ℕ) (a : ℚ)
deriving DecidableEq, Repr

/-- `getDensityColor(density, maxDensity)`: transparent on no data, otherwise
five hue bands over `normalized = density / maxDensity` with alpha rising
within and across bands. -/
def getDensityColor (density maxDensity : ℚ) : ColorToken :=
  if maxDensity = 0 ∨ density = 0 then ColorToken.transparent
  else
    let normalized := density / maxDensity
    if normalized < 1/5 then ColorToken.rgba 0 0 255 (1/10 + normalized * (1/5))
    else if normalized < 2/5 then ColorToken.rgba 0 255 255 (1/5 + normalized * (3/10))
    else if normalized < 3/5 then ColorToken.rgba 0 255 0 (3/10 + normalized * (3/10))
    else if normalized < 4/5 then ColorToken.rgba 255 255 0 (1/2 + normalized * (1/5))
    else ColorToken.rgba 255 0 0 (3/5 + normalized * (3/10))

/-! ## Shot-log state machine (shot tracking test helpers) -/

/-- `createGameState()`'s shape. Scores are `ℤ`: the source never clamps. -/
structure GameState where
  shots : List Shot
  homeScore : ℤ
  awayScore : ℤ
  currentTeam : String
  selectedType : Option String
  currentHalf : String
  clockSeconds : ℤ
deriving DecidableEq, Repr

/-- `createGameState()`. -/
def createGameState : GameState :=
  { shots := []
    homeScore := 0
    awayScore := 0
    currentTeam := "home"
    selectedType := none
    currentHalf := "1st Half"
    clockSeconds := 0 }

/-- `addShot(gameState, shot)`: push onto the log; a goal bumps `homeScore`
if `team === 'home'`, otherwise `awayScore`. (The DOM update is ignored.) -/
def addShot (gs : GameState) (shot : Shot) : GameState :=
  let gs' := { gs with shots := gs.shots ++ [shot] }
  if shot.type = "GOAL!" then
    if shot.team = "home" then { gs' with homeScore := gs'.homeScore + 1 }
    else { gs' with awayScore := gs'.awayScore + 1 }
  else gs'

/-- `undoLastShot(gameState)`: pop the last entry (undefined on an empty log),
decrement the score it contributed, and return it together with the new state. -/
def undoLastShot (gs : GameState) : Option Shot × GameState :=
  match gs.shots.getLast? with
  | none => (none, { gs with shots := gs.shots.dropLast })
  | some shot =>
    let gs' := { gs with shots := gs.shots.dropLast }
    if shot.type = "GOAL!" then
      if shot.team = "home" then (some shot, { gs' with homeScore := gs'.homeScore - 1 })
      else (some shot, { gs' with awayScore := gs'.awayScore - 1 })
    else (some shot, gs')

/-- Number of logged goals for a team, as an integer (the value the scores
should track). -/
def goalCount (shots : List Shot) (team : String) : ℤ :=
  ((shots.filter (fun s => s.team == team && s.type == "GOAL!")).length : ℤ)

/-- States reachable from `createGameState` by `addShot` / `undoLastShot`,
where every added shot is a ShotRecord of the data model
(`team ∈ {home, away}`). -/
inductive Reachable : GameState → Prop where
  | init : Reachable createGameState
  | add (gs : GameState) (shot : Shot) (h : Reachable gs)
      (hteam : shot.team = "home" ∨ shot.team = "away") :
      Reachable (addShot gs shot)
  | undo (gs : GameState) (h : Reachable gs) :
      Reachable (undoLastShot gs).2

/-! ## Helper lemmas -/

/-- Two chained filters count the same shots as one conjunctive filter. -/
lemma filter_filter_and {α : Type} (l : List α) (p q : α → Bool) :
    (l.filter p).filter q = l.filter (fun a => p a && q a) := by
  rw [List.filter_filter]
  exact List.filter_congr (fun a _ => Bool.and_comm (q a) (p a))

lemma getD_replicate_of_lt {α : Type} (n i : ℕ) (a d : α) (h : i < n) :
    (List.replicate n a).getD i d = a := by
  simp [List.getD, List.getElem?_replicate, h]

lemma getD_set_self {α : Type} (l : List α) (i : ℕ) (a d : α) (h : i < l.length) :
    (l.set i a).getD i d = a := by
  simp [List.getD, List.getElem?_set, h]

lemma foldl_max_zeros (l : List ℚ) (x : ℚ) (hx : x = 0) (h : ∀ y ∈ l, y = 0) :
    l.foldl max x = 0 := by
  induction l generalizing x with
  | nil => simpa using hx
  | cons a t ih =>
    simp only [List.foldl_cons]
    refine ih _ ?_ (fun y hy => h y (by simp [hy]))
    have ha := h a (by simp)
    simp [hx, ha]

/-- The maximum reported over an all-zero grid is 0. -/
lemma getMaxDensity_of_all_zero (grid : List (List ℚ))
    (h : ∀ row ∈ grid, ∀ c ∈ row, c = 0) : getMaxDensity grid = 0 := by
  have hall : ∀ y ∈ grid.flatten, y = 0 := by
    intro y hy
    rw [List.mem_flatten] at hy
    obtain ⟨r, hr, hyr⟩ := hy
    exact h r hr y hyr
  unfold getMaxDensity
  cases hf : grid.flatten with
  | nil => rfl
  | cons x xs =>
    refine foldl_max_zeros xs x ?_ ?_
    · exact hall x (by rw [hf]; simp)
    · intro y hy; exact hall y (by rw [hf]; simp [hy])

/-! ## C3: calculateTeamStats -/

/-- C3: `teamStats` returns `goals` = that team's Goal count, `onTarget` =
goals plus the team's exclusive "Shot On Target" count, `offTarget` = the
team's "Shot Off Target" count, `total` = the team's shot count; a team
string matching no shot yields the all-zero result (no error is possible). -/
theorem C3_teamStats (shots : List Shot) (team : String) :
    (calculateTeamStats shots team).goals =
        (shots.filter (fun s => s.team == team && s.type == "GOAL!")).length
  ∧ (calculateTeamStats shots team).onTarget =
        (shots.filter (fun s => s.team == team && s.type == "GOAL!")).length
      + (shots.filter (fun s => s.team == team && s.type == "Shot On Target")).length
  ∧ (calculateTeamStats shots team).offTarget =
        (shots.filter (fun s => s.team == team && s.type == "Shot Off Target")).length
  ∧ (calculateTeamStats shots team).total =
        (shots.filter (fun s => s.team == team)).length
  ∧ ((∀ s ∈ shots, s.team ≠ team) →
        calculateTeamStats shots team = ⟨0, 0, 0, 0⟩) := by
  refine ⟨?_, ?_, ?_, ?_, ?_⟩
  · simp only [calculateTeamStats, filter_filter_and]
  · simp only [calculateTeamStats, filter_filter_and]
  · simp only [calculateTeamStats, filter_filter_and]
  · simp only [calculateTeamStats]
  · intro h
    have hnil : shots.filter (fun s => s.team == team) = [] := by
      rw [List.filter_eq_nil_iff]
      intro s hs
      simp [h s hs]
    simp [calculateTeamStats, hnil]

def c3shot : Shot := ⟨"home", "GOAL!", "1st Half", ⟨90, 30⟩⟩

theorem C3_teamStats_witness :
    calculateTeamStats [c3shot] "invalid" = ⟨0, 0, 0, 0⟩ :=
  (C3_teamStats [c3shot] "invalid").2.2.2.2 (by decide)

/-! ## C2: calculateHalfStats -/

def c2shots : List Shot :=
  [⟨"home", "GOAL!", "1st Half", ⟨90, 30⟩⟩,
   ⟨"home", "Shot On Target", "1st Half", ⟨88, 32⟩⟩]

/-- C2 counterexample: on a log with one home Goal and one home
"Shot On Target" in the first half, `calculateHalfStats` reports
`onTarget = 1`, not goal count + exclusive on-target count = 2; the goal
is not folded into the on-target bucket (and the result carries no `total`
field at all, see `HalfStats`). -/
theorem C2_halfStats_counterexample :
    (calculateHalfStats c2shots "home" "1st Half").onTarget ≠
      (c2shots.filter (fun s => (s.team == "home" && s.half == "1st Half") && s.type == "GOAL!")).length
      + (c2shots.filter (fun s => (s.team == "home" && s.half == "1st Half") && s.type == "Shot On Target")).length := by
  decide

/-- C2 amended: `halfStats(shots, team, half)` returns only
`{goals, onTarget, offTarget}` — there is no `total` field — scoped to the
given team and half, and its `onTarget` is the exclusive "Shot On Target"
count: goals are not added in. -/
theorem C2_halfStats_amended (shots : List Shot) (team half : String) :
    calculateHalfStats shots team half =
      { goals :=
          (shots.filter (fun s => (s.team == team && s.half == half) && s.type == "GOAL!")).length
        onTarget :=
          (shots.filter (fun s => (s.team == team && s.half == half) && s.type == "Shot On Target")).length
        offTarget :=
          (shots.filter (fun s => (s.team == team && s.half == half) && s.type == "Shot Off Target")).length } := by
  simp only [calculateHalfStats, filter_filter_and]

/-! ## C4: calculateAccuracy and calculateConversionRate -/

/-- C4: accuracy is 100 · (Goal-or-OnTarget count) / length, conversion rate
is 100 · Goal count / length, and both are exactly 0 on the empty list (the
guard prevents any division-by-zero value from surfacing). -/
theorem C4_accuracy_conversionRate (shots : List Shot) :
    calculateAccuracy shots =
        100 * ((shots.filter (fun s => s.type == "GOAL!" || s.type == "Shot On Target")).length : ℚ)
          / (shots.length : ℚ)
  ∧ calculateConversionRate shots =
        100 * ((shots.filter (fun s => s.type == "GOAL!")).length : ℚ) / (shots.length : ℚ)
  ∧ calculateAccuracy [] = 0 ∧ calculateConversionRate [] = 0 := by
  refine ⟨?_, ?_, by simp [calculateAccuracy], by simp [calculateConversionRate]⟩
  · by_cases h : shots.length = 0
    · have hf : (shots.filter (fun s => s.type == "GOAL!" || s.type == "Shot On Target")).length = 0 :=
        Nat.le_zero.mp (h ▸ List.length_filter_le _ _)
      simp [calculateAccuracy, h, hf]
    · rw [calculateAccuracy, if_neg h, div_mul_eq_mul_div, mul_comm]
  · by_cases h : shots.length = 0
    · have hf : (shots.filter (fun s => s.type == "GOAL!")).length = 0 :=
        Nat.le_zero.mp (h ▸ List.length_filter_le _ _)
      simp [calculateConversionRate, h, hf]
    · rw [calculateConversionRate, if_neg h, div_mul_eq_mul_div, mul_comm]

/-! ## C5: filterShots -/

lemma filterByTeam_sublist (shots : List Shot) (t : String) :
    (filterByTeam shots t).Sublist shots := by
  unfold filterByTeam
  split
  · exact List.Sublist.refl shots
  · exact List.filter_sublist shots

lemma filterByType_sublist (shots : List Shot) (t : String) :
    (filterByType shots t).Sublist shots := by
  unfold filterByType
  split
  · exact List.Sublist.refl shots
  · exact List.filter_sublist shots

lemma filterByHalf_sublist (shots : List Shot) (t : String) :
    (filterByHalf shots t).Sublist shots := by
  unfold filterByHalf
  split
  · exact List.Sublist.refl shots
  · exact List.filter_sublist shots

/-- C5: an absent criteria object (all fields defaulting to `"all"`) and the
explicit all-`"all"` criteria return the input list itself; any criteria
combination yields a sublist of the input (survivors keep their relative
order); and a team value matching no shot — e.g. a string outside
{home, away, all} on a home/away log — yields `[]`, not an error. -/
theorem C5_filterShots (shots : List Shot) (c : FilterCriteria) (t : String) :
    filterShots shots {} = shots
  ∧ filterShots shots ⟨"all", "all", "all"⟩ = shots
  ∧ (filterShots shots c).Sublist shots
  ∧ (t ≠ "all" → (∀ s ∈ shots, s.team ≠ t) →
        filterShots shots { team := t } = []) := by
  refine ⟨?_, ?_, ?_, ?_⟩
  · simp [filterShots, filterByTeam, filterByType, filterByHalf]
  · simp [filterShots, filterByTeam, filterByType, filterByHalf]
  · exact ((filterByHalf_sublist _ _).trans (filterByType_sublist _ _)).trans
      (filterByTeam_sublist _ _)
  · intro ht h
    have hnil : filterByTeam shots t = [] := by
      rw [filterByTeam, if_neg ht, List.filter_eq_nil_iff]
      intro s hs
      simp [h s hs]
    simp [filterShots, hnil, filterByType, filterByHalf]

def c5shot : Shot := ⟨"home", "Shot Off Target", "2nd Half", ⟨40, 20⟩⟩

theorem C5_filterShots_witness :
    filterShots [c5shot] { team := "neutral" } = [] :=
  (C5_filterShots [c5shot] {} "neutral").2.2.2 (by decide) (by decide)

/-! ## C9: addShot then undoLastShot round-trips -/

/-- C9: for every game state and every shot, `undoLastShot` after `addShot`
pops exactly the shot just appended (last-in-first-out), returns it, and
restores the whole state — shot log, `homeScore` and `awayScore` included;
in particular undoing a Goal subtracts exactly the 1 the add had added. -/
theorem C9_addShot_undoLastShot (gs : GameState) (shot : Shot) :
    undoLastShot (addShot gs shot) = (some shot, gs) := by
  obtain ⟨shots, hs, as, ct, st, ch, cs⟩ := gs
  by_cases hty : shot.type = "GOAL!"
  · by_cases htm : shot.team = "home"
    · simp [addShot, undoLastShot, hty, htm]
    · simp [addShot, undoLastShot, hty, htm]
  · simp [addShot, undoLastShot, hty]

/-! ## C10: score-log consistency invariant -/

lemma goalCount_append (l : List Shot) (a : Shot) (t : String) :
    goalCount (l ++ [a]) t =
      goalCount l t + (if a.team = t ∧ a.type = "GOAL!" then 1 else 0) := by
  unfold goalCount
  rw [List.filter_append]
  by_cases h : a.team = t ∧ a.type = "GOAL!"
  · rw [if_pos h]
    have : List.filter (fun s => s.team == t && s.type == "GOAL!") [a] = [a] := by
      simp [h.1, h.2]
    rw [this]
    simp only [List.length_append, List.length_singleton]
    push_cast
    omega
  · rw [if_neg h]
    have : List.filter (fun s => s.team == t && s.type == "GOAL!") [a] = [] := by
      rcases not_and_or.mp h with h' | h' <;> simp [h']
    rw [this]
    simp

/-- Every reachable state lists only data-model shots and keeps both scores
equal to the corresponding logged goal counts. -/
lemma reachable_invariant (gs : GameState) (h : Reachable gs) :
    (∀ s ∈ gs.shots, s.team = "home" ∨ s.team = "away")
  ∧ gs.homeScore = goalCount gs.shots "home"
  ∧ gs.awayScore = goalCount gs.shots "away" := by
  induction h with
  | init => simp [createGameState, goalCount]
  | add gs shot hr hteam ih =>
    obtain ⟨ihmem, ihh, iha⟩ := ih
    have hmem : ∀ s ∈ (addShot gs shot).shots, s.team = "home" ∨ s.team = "away" := by
      intro s hs
      have hsh : (addShot gs shot).shots = gs.shots ++ [shot] := by
        unfold addShot
        by_cases hty : shot.type = "GOAL!" <;> by_cases htm : shot.team = "home" <;>
          simp [hty, htm]
      rw [hsh, List.mem_append] at hs
      rcases hs with hs | hs
      · exact ihmem s hs
      · rw [List.mem_singleton] at hs
        rw [hs]; exact hteam
    refine ⟨hmem, ?_, ?_⟩ <;>
      · by_cases hty : shot.type = "GOAL!" <;>
          [skip; simp [addShot, hty, goalCount_append, ihh, iha]]
        by_cases htm : shot.team = "home"
        · have hna : shot.team ≠ "away" := by rw [htm]; decide
          simp [addShot, hty, htm, hna, goalCount_append, ihh, iha]
        · have hta : shot.team = "away" := hteam.resolve_left htm
          have hnh : shot.team ≠ "home" := by rw [hta]; decide
          simp [addShot, hty, htm, hta, hnh, goalCount_append, ihh, iha]
  | undo gs hr ih =>
    obtain ⟨ihmem, ihh, iha⟩ := ih
    rcases List.eq_nil_or_concat gs.shots with hnil | ⟨l, a, hconcat⟩
    · have : undoLastShot gs = (none, gs) := by
        unfold undoLastShot
        rw [hnil]
        simp
        obtain ⟨shots, hs, as, ct, st, ch, cs⟩ := gs
        simp at hnil
        simp [hnil]
      rw [this]
      exact ⟨ihmem, ihh, iha⟩
    · rw [List.concat_eq_append] at hconcat
      have hlast : gs.shots.getLast? = some a := by rw [hconcat]; simp
      have hdrop : gs.shots.dropLast = l := by rw [hconcat]; simp
      have hmema : a ∈ gs.shots := by rw [hconcat]; simp
      have hmem' : ∀ s ∈ l, s.team = "home" ∨ s.team = "away" := by
        intro s hs
        exact ihmem s (by rw [hconcat]; simp [hs])
      have hch : goalCount gs.shots "home" =
          goalCount l "home" + (if a.team = "home" ∧ a.type = "GOAL!" then 1 else 0) := by
        rw [hconcat, goalCount_append]
      have hca : goalCount gs.shots "away" =
          goalCount l "away" + (if a.team = "away" ∧ a.type = "GOAL!" then 1 else 0) := by
        rw [hconcat, goalCount_append]
      unfold undoLastShot
      rw [hlast]
      by_cases hty : a.type = "GOAL!"
      · by_cases htm : a.team = "home"
        · have hna : a.team ≠ "away" := by rw [htm]; decide
          simp only [hty, htm, if_pos rfl, if_true]
          refine ⟨by simpa [hdrop] using hmem', ?_, ?_⟩ <;>
            simp [hdrop, ihh, iha, hch, hca, htm, hna, hty]
        · have hta : a.team = "away" := (ihmem a hmema).resolve_left htm
          simp only [hty, htm, if_pos rfl, if_false]
          refine ⟨by simpa [hdrop] using hmem', ?_, ?_⟩ <;>
            simp [hdrop, ihh, iha, hch, hca, htm, hta, hty]
      · simp only [hty, if_neg hty]
        refine ⟨by simpa [hdrop] using hmem', ?_, ?_⟩ <;>
          simp [hdrop, ihh, iha, hch, hca, hty]

/-- C10: starting from `createGameState` (empty log, both scores 0), after any
sequence of `addShot` / `undoLastShot` with data-model shots, `homeScore` is
the number of logged home Goals and `awayScore` the number of logged away
Goals; `undoLastShot` on an empty log returns no shot and leaves the state
unchanged. -/
theorem C10_score_invariant :
    (∀ gs : GameState, Reachable gs →
        gs.homeScore = goalCount gs.shots "home"
      ∧ gs.awayScore = goalCount gs.shots "away")
  ∧ (∀ gs : GameState, gs.shots = [] → undoLastShot gs = (none, gs)) := by
  constructor
  · intro gs h
    exact ⟨(reachable_invariant gs h).2.1, (reachable_invariant gs h).2.2⟩
  · intro gs hnil
    unfold undoLastShot
    rw [hnil]
    obtain ⟨shots, hs, as, ct, st, ch, cs⟩ := gs
    simp at hnil
    simp [hnil]

def c10goal : Shot := ⟨"home", "GOAL!", "1st Half", ⟨95, 34⟩⟩

theorem C10_score_invariant_witness :
    ((addShot createGameState c10goal).homeScore =
        goalCount (addShot createGameState c10goal).shots "home"
      ∧ (addShot createGameState c10goal).awayScore =
        goalCount (addShot createGameState c10goal).shots "away")
  ∧ undoLastShot createGameState = (none, createGameState) :=
  ⟨C10_score_invariant.1 _
      (Reachable.add createGameState c10goal Reachable.init (Or.inl rfl)),
   C10_score_invariant.2 createGameState rfl⟩

/-! ## C6: shot weighting policy -/

/-- C6: Goals and on-target shots weigh 1.0 and always pass the heat-map
inclusion filter; off-target shots in the attacking half (`x > 52.5`) weigh
0.4 and are included; off-target shots at `x ≤ 52.5` weigh 0 and are dropped
from the heat-map shot list entirely; hence an off-target shot always weighs
strictly less than a Goal at the same coordinates. -/
theorem C6_shotWeight (s t : Shot) :
    (s.type = "GOAL!" ∨ s.type = "Shot On Target" →
        getShotWeight s = 1 ∧ s ∈ getHeatMapShots [s] "all")
  ∧ (s.type = "Shot Off Target" → (105 : ℚ)/2 < s.position.x →
        getShotWeight s = 2/5 ∧ s ∈ getHeatMapShots [s] "all")
  ∧ (s.type = "Shot Off Target" → s.position.x ≤ (105 : ℚ)/2 →
        getShotWeight s = 0 ∧ getHeatMapShots [s] "all" = [])
  ∧ (s.type = "GOAL!" → t.type = "Shot Off Target" →
        getShotWeight t < getShotWeight s) := by
  refine ⟨?_, ?_, ?_, ?_⟩
  · intro h
    rcases h with h | h <;> simp [getShotWeight, getHeatMapShots, h]
  · intro h hx
    have h1 : s.type ≠ "GOAL!" := by rw [h]; decide
    have h2 : s.type ≠ "Shot On Target" := by rw [h]; decide
    constructor
    · rw [getShotWeight, if_neg (by tauto), if_pos ⟨h, hx⟩]
    · simp [getHeatMapShots, h, hx]
  · intro h hx
    have h1 : s.type ≠ "GOAL!" := by rw [h]; decide
    have h2 : s.type ≠ "Shot On Target" := by rw [h]; decide
    have hnx : ¬((105 : ℚ)/2 < s.position.x) := not_lt.mpr hx
    constructor
    · rw [getShotWeight, if_neg (by tauto), if_neg (by tauto)]
    · simp [getHeatMapShots, h, hnx]
  · intro hs ht
    have h1 : t.type ≠ "GOAL!" := by rw [ht]; decide
    have h2 : t.type ≠ "Shot On Target" := by rw [ht]; decide
    have hws : getShotWeight s = 1 := by simp [getShotWeight, hs]
    rw [hws, getShotWeight, if_neg (by tauto)]
    split
    · norm_num
    · norm_num

def c6goal : Shot := ⟨"home", "GOAL!", "2nd Half", ⟨95, 34⟩⟩
def c6off : Shot := ⟨"home", "Shot Off Target", "2nd Half", ⟨30, 34⟩⟩
def c6offAttack : Shot := ⟨"away", "Shot Off Target", "2nd Half", ⟨80, 34⟩⟩

theorem C6_shotWeight_witness :
    (getShotWeight c6goal = 1 ∧ c6goal ∈ getHeatMapShots [c6goal] "all")
  ∧ (getShotWeight c6offAttack = 2/5
      ∧ c6offAttack ∈ getHeatMapShots [c6offAttack] "all")
  ∧ (getShotWeight c6off = 0 ∧ getHeatMapShots [c6off] "all" = [])
  ∧ getShotWeight c6off < getShotWeight c6goal :=
  ⟨(C6_shotWeight c6goal c6off).1 (Or.inl rfl),
   (C6_shotWeight c6offAttack c6off).2.1 rfl (by norm_num [c6offAttack]),
   (C6_shotWeight c6off c6off).2.2.1 rfl (by norm_num [c6off]),
   (C6_shotWeight c6goal c6off).2.2.2 rfl rfl⟩

/-! ## C8: getDensityColor band laws -/

/-- The band chooser of the claim: thresholds 0.2, 0.4, 0.6, 0.8, each band
inclusive at its lower bound and exclusive at its upper bound (the last band
extends to 1). -/
def specBand (n : ℚ) : ℕ :=
  if n < 1/5 then 0
  else if n < 2/5 then 1
  else if n < 3/5 then 2
  else if n < 4/5 then 3
  else 4

/-- The non-transparent body of `getDensityColor` as a function of the
normalized density. -/
def colorAt (n : ℚ) : ColorToken :=
  if n < 1/5 then ColorToken.rgba 0 0 255 (1/10 + n * (1/5))
  else if n < 2/5 then ColorToken.rgba 0 255 255 (1/5 + n * (3/10))
  else if n < 3/5 then ColorToken.rgba 0 255 0 (3/10 + n * (3/10))
  else if n < 4/5 then ColorToken.rgba 255 255 0 (1/2 + n * (1/5))
  else ColorToken.rgba 255 0 0 (3/5 + n * (3/10))

/-- Alpha channel of a token, 0 for the transparent token. -/
def alphaOf : ColorToken → ℚ
  | ColorToken.transparent => 0
  | ColorToken.rgba _ _ _ a => a

/-- The hue of a token, numbered cool-to-warm in the order the code paints
them: blue, cyan, green, yellow, red (5 for anything else). -/
def hueBand : ColorToken → ℕ
  | ColorToken.rgba 0 0 255 _ => 0
  | ColorToken.rgba 0 255 255 _ => 1
  | ColorToken.rgba 0 255 0 _ => 2
  | ColorToken.rgba 255 255 0 _ => 3
  | ColorToken.rgba 255 0 0 _ => 4
  | _ => 5

lemma getDensityColor_eq_colorAt (d m : ℚ) (hm : m ≠ 0) (hd : d ≠ 0) :
    getDensityColor d m = colorAt (d / m) := by
  rw [getDensityColor, if_neg (by tauto)]
  rfl

lemma hueBand_colorAt (n : ℚ) : hueBand (colorAt n) = specBand n := by
  unfold hueBand colorAt specBand
  split_ifs <;> rfl

lemma alphaOf_colorAt_mono (n₁ n₂ : ℚ) (h : specBand n₁ < specBand n₂) :
    alphaOf (colorAt n₁) < alphaOf (colorAt n₂) := by
  unfold specBand at h
  unfold colorAt
  split_ifs at h ⊢ <;> simp only [alphaOf] at * <;> first | omega | linarith

/-- C8: `getDensityColor` yields the transparent token exactly when the max
or the cell value is 0; otherwise the hue is the one selected by the claim's
band thresholds on `n = cellValue / maxValue`; normalized values in a hotter
band always get strictly larger alpha than values in a cooler band, and
values in different bands always get different tokens. -/
theorem C8_densityColor :
    (∀ d m : ℚ, getDensityColor d m = ColorToken.transparent ↔ (m = 0 ∨ d = 0))
  ∧ (∀ d m : ℚ, m ≠ 0 → d ≠ 0 →
        hueBand (getDensityColor d m) = specBand (d / m))
  ∧ (∀ d₁ d₂ m : ℚ, m ≠ 0 → d₁ ≠ 0 → d₂ ≠ 0 →
        specBand (d₁ / m) < specBand (d₂ / m) →
        alphaOf (getDensityColor d₁ m) < alphaOf (getDensityColor d₂ m))
  ∧ (∀ d₁ d₂ m : ℚ, m ≠ 0 → d₁ ≠ 0 → d₂ ≠ 0 →
        specBand (d₁ / m) ≠ specBand (d₂ / m) →
        getDensityColor d₁ m ≠ getDensityColor d₂ m) := by
  refine ⟨?_, ?_, ?_, ?_⟩
  · intro d m
    constructor
    · intro h
      by_contra hc
      push_neg at hc
      rw [getDensityColor_eq_colorAt d m hc.1 hc.2] at h
      revert h
      unfold colorAt
      split_ifs <;> simp
    · intro h
      rw [getDensityColor, if_pos h]
  · intro d m hm hd
    rw [getDensityColor_eq_colorAt d m hm hd, hueBand_colorAt]
  · intro d₁ d₂ m hm h1 h2 hband
    rw [getDensityColor_eq_colorAt d₁ m hm h1, getDensityColor_eq_colorAt d₂ m hm h2]
    exact alphaOf_colorAt_mono _ _ hband
  · intro d₁ d₂ m hm h1 h2 hband
    rcases lt_or_gt_of_ne hband with hlt | hgt
    · intro heq
      have := alphaOf_colorAt_mono _ _ hlt
      rw [getDensityColor_eq_colorAt d₁ m hm h1,
        getDensityColor_eq_colorAt d₂ m hm h2] at heq
      rw [heq] at this
      exact lt_irrefl _ this
    · intro heq
      have := alphaOf_colorAt_mono _ _ hgt
      rw [getDensityColor_eq_colorAt d₁ m hm h1,
        getDensityColor_eq_colorAt d₂ m hm h2] at heq
      rw [heq] at this
      exact lt_irrefl _ this

theorem C8_densityColor_witness :
    getDensityColor 0 1 = ColorToken.transparent
  ∧ getDensityColor 1 0 = ColorToken.transparent
  ∧ hueBand (getDensityColor (1/10) 1) = specBand ((1/10) / 1)
  ∧ alphaOf (getDensityColor (1/10) 1) < alphaOf (getDensityColor (9/10) 1)
  ∧ getDensityColor (1/10) 1 ≠ getDensityColor (9/10) 1 :=
  ⟨(C8_densityColor.1 0 1).mpr (Or.inr rfl),
   (C8_densityColor.1 1 0).mpr (Or.inl rfl),
   C8_densityColor.2.1 (1/10) 1 (by norm_num) (by norm_num),
   C8_densityColor.2.2.1 (1/10) (9/10) 1 (by norm_num) (by norm_num) (by norm_num)
     (by norm_num [specBand]),
   C8_densityColor.2.2.2 (1/10) (9/10) 1 (by norm_num) (by norm_num) (by norm_num)
     (by norm_num [specBand])⟩

/-! ## C7: the empty density grid -/

/-- C7: with any positive cell size `g`, the grid built from no shots has
`ceil(68/g)` rows, each of `ceil(105/g)` columns, every cell is 0, and its
maximum density is 0. -/
theorem C7_emptyGrid (g : ℚ) (_hg : 0 < g) :
    (calculateDensityGrid [] g).length = (⌈(68:ℚ) / g⌉).toNat
  ∧ (∀ row ∈ calculateDensityGrid [] g,
        row.length = (⌈(105:ℚ) / g⌉).toNat ∧ ∀ c ∈ row, c = 0)
  ∧ getMaxDensity (calculateDensityGrid [] g) = 0 := by
  have hgrid : calculateDensityGrid [] g =
      List.replicate (⌈(68:ℚ) / g⌉).toNat
        (List.replicate (⌈(105:ℚ) / g⌉).toNat 0) := by
    simp only [calculateDensityGrid, List.foldl_nil]
    rfl
  refine ⟨by rw [hgrid]; simp, ?_, ?_⟩
  · intro row hrow
    rw [hgrid, List.mem_replicate] at hrow
    rw [hrow.2]
    exact ⟨by simp, fun c hc => List.eq_of_mem_replicate hc⟩
  · refine getMaxDensity_of_all_zero _ ?_
    intro row hrow c hc
    rw [hgrid, List.mem_replicate] at hrow
    rw [hrow.2] at hc
    exact List.eq_of_mem_replicate hc

theorem C7_emptyGrid_witness :
    (calculateDensityGrid [] 5).length = (⌈(68:ℚ) / 5⌉).toNat
  ∧ (∀ row ∈ calculateDensityGrid [] 5,
        row.length = (⌈(105:ℚ) / 5⌉).toNat ∧ ∀ c ∈ row, c = 0)
  ∧ getMaxDensity (calculateDensityGrid [] 5) = 0 :=
  C7_emptyGrid 5 (by norm_num)

/-! ## C1: shots on the upper field boundary -/

lemma ceil68 : (⌈FIELD_HEIGHT / (5:ℚ)⌉).toNat = 14 := by
  have : ⌈FIELD_HEIGHT / (5:ℚ)⌉ = 14 := by
    rw [show FIELD_HEIGHT = (68:ℚ) from rfl, Int.ceil_eq_iff]; norm_num
  rw [this]
  rfl

lemma ceil105 : (⌈FIELD_WIDTH / (5:ℚ)⌉).toNat = 21 := by
  have : ⌈FIELD_WIDTH / (5:ℚ)⌉ = 21 := by
    rw [show FIELD_WIDTH = (105:ℚ) from rfl, Int.ceil_eq_iff]; norm_num
  rw [this]
  rfl

/-- A shot on the line `y = 68` with in-range `x` lands in row 13 — the last
valid row of the 14-row grid — at column `floor(x/5)`. -/
lemma densityGrid_single_y68 (s : Shot) (hy : s.position.y = 68)
    (hx0 : 0 ≤ s.position.x) (hx : s.position.x < 105) :
    gridCell (calculateDensityGrid [s] 5) 13 (⌊s.position.x / 5⌋).toNat
      = getShotWeight s := by
  have h68 : ⌊s.position.y / (5:ℚ)⌋ = 13 := by
    rw [hy, Int.floor_eq_iff]; norm_num
  have hcol0 : 0 ≤ ⌊s.position.x / (5:ℚ)⌋ := Int.floor_nonneg.mpr (by positivity)
  have hcol21 : ⌊s.position.x / (5:ℚ)⌋ < 21 := Int.floor_lt.mpr (by push_cast; linarith)
  have hexp : calculateDensityGrid [s] 5 =
      bumpCell (List.replicate 14 (List.replicate 21 0)) 13
        (⌊s.position.x / 5⌋).toNat (getShotWeight s) := by
    simp only [calculateDensityGrid, List.foldl_cons, List.foldl_nil, ceil68, ceil105, h68]
    rw [if_pos ⟨hcol0, by exact_mod_cast hcol21, by norm_num, by norm_num⟩]
    rfl
  have hc21 : (⌊s.position.x / (5:ℚ)⌋).toNat < 21 := by omega
  rw [hexp]
  unfold gridCell bumpCell
  rw [getD_replicate_of_lt 14 13 _ _ (by norm_num),
    getD_set_self _ _ _ _ (by simp),
    getD_set_self _ _ _ _ (by simpa using hc21),
    getD_replicate_of_lt 21 _ _ _ hc21, zero_add]

/-- A shot on the line `x = 105` computes column 21 = the column count, fails
the bounds check, and leaves the grid untouched. -/
lemma densityGrid_single_x105 (s : Shot) (hx : s.position.x = 105) :
    calculateDensityGrid [s] 5 = calculateDensityGrid [] 5 := by
  have h21 : ⌊s.position.x / (5:ℚ)⌋ = 21 := by
    rw [hx, Int.floor_eq_iff]; norm_num
  simp only [calculateDensityGrid, List.foldl_cons, List.foldl_nil, ceil68, ceil105, h21]
  rw [if_neg]
  rintro ⟨-, h, -⟩
  rw [show (((21:ℕ)):ℤ) = 21 by norm_num] at h
  exact lt_irrefl _ h

def c1shot : Shot := ⟨"home", "GOAL!", "1st Half", ⟨105, 34⟩⟩

/-- C1 counterexample: a Goal exactly on the boundary `x = 105` has nonzero
weight 1, yet the density grid built from it is identical to the empty grid —
the builder's bounds check drops the shot instead of clamping its column
index into the last cell, so its weight is absent from the grid. -/
theorem C1_boundary_counterexample :
    getShotWeight c1shot = 1
  ∧ calculateDensityGrid [c1shot] 5 = calculateDensityGrid [] 5
  ∧ getMaxDensity (calculateDensityGrid [c1shot] 5) = 0 := by
  have hdrop : calculateDensityGrid [c1shot] 5 = calculateDensityGrid [] 5 :=
    densityGrid_single_x105 c1shot rfl
  refine ⟨by simp [getShotWeight, c1shot], hdrop, ?_⟩
  rw [hdrop]
  exact (C7_emptyGrid 5 (by norm_num)).2.2

/-- C1 amended: at grid size 5, a shot on the upper boundary `y = 68` (with
`0 ≤ x < 105`) is binned into row 13, the last valid row, because
`floor(68/5) = 13 < ceil(68/5) = 14`, so its weight is present in the grid;
but a shot on the boundary `x = 105` computes column `floor(105/5) = 21`,
equal to the column count, fails the `col < cols` bounds check and is
dropped — its weight never reaches the grid. -/
theorem C1_boundary_binning (s : Shot) :
    (s.position.y = 68 → 0 ≤ s.position.x → s.position.x < 105 →
        gridCell (calculateDensityGrid [s] 5) 13 (⌊s.position.x / 5⌋).toNat
          = getShotWeight s)
  ∧ (s.position.x = 105 →
        calculateDensityGrid [s] 5 = calculateDensityGrid [] 5) :=
  ⟨densityGrid_single_y68 s, densityGrid_single_x105 s⟩

def c1yshot : Shot := ⟨"away", "Shot On Target", "2nd Half", ⟨100, 68⟩⟩

theorem C1_boundary_binning_witness :
    gridCell (calculateDensityGrid [c1yshot] 5) 13 (⌊c1yshot.position.x / 5⌋).toNat
      = getShotWeight c1yshot
  ∧ calculateDensityGrid [c1shot] 5 = calculateDensityGrid [] 5 :=
  ⟨(C1_boundary_binning c1yshot).1 rfl (by norm_num [c1yshot]) (by norm_num [c1yshot]),
   (C1_boundary_binning c1shot).2 rfl⟩
